import Mathlib

/-!
Shallow embedding of `logging-middleware/logger.js`.

The module under verification is a thin logging client: `logEvent`
validates `(stack, level, packageName)` against static allow-lists,
then issues a single HTTP POST carrying a JSON payload, absorbing
every failure into `console` diagnostics; `createLogger` wraps
`logEvent` with per-level convenience methods.

Modelling choices:
* `process.env.ACCESS_TOKEN` is an `Option String` (`none` = unset);
  JavaScript's falsy test `!ACCESS_TOKEN` is `isFalsyToken`.
* The clock is a single `Nat` (milliseconds since the Unix epoch) read
  when the payload is built — the one `new Date()` call in the source.
  `toISOString` models `Date.prototype.toISOString` (proleptic
  Gregorian, days via the standard civil-from-days algorithm).
* `fetch` is an oracle `FetchOutcome` in the environment: either a
  response (status, statusText, body text) or a rejected promise
  carrying an error message.
* The observable behaviour is a pair: the list of `console` lines
  written, and the list of HTTP requests issued.  The async function's
  resolve/reject outcome is an `Except String`: `Except.error` would be
  a rejected promise surfacing to the caller.
* `JSON.stringify` on the flat all-string payload object is
  `stringifyLogPayload` (keys in insertion order, standard escaping).
-/

/-- Output stream of a `console.*` diagnostic call (`console.error` or
`console.warn`). -/
inductive ConsoleStream where
  | error
  | warn
deriving DecidableEq, Repr

/-- One line of local diagnostic output. -/
structure ConsoleLine where
  stream : ConsoleStream
  text : String
deriving DecidableEq, Repr

/-- `const EVALUATION_SERVICE_URL = 'http://20.244.56.144/evaluation-service/logs'`. -/
def EVALUATION_SERVICE_URL : String := "http://20.244.56.144/evaluation-service/logs"

/-- `const ALLOWED_STACKS = ['backend', 'frontend']`. -/
def ALLOWED_STACKS : List String := ["backend", "frontend"]

/-- `const ALLOWED_LEVELS = ['debug', 'info', 'warn', 'error', 'fatal']`. -/
def ALLOWED_LEVELS : List String := ["debug", "info", "warn", "error", "fatal"]

/-- `const ALLOWED_PACKAGES = { backend: [...], frontend: [...] }`;
indexing with any other key yields `undefined`, hence `Option`. -/
def ALLOWED_PACKAGES (stack : String) : Option (List String) :=
  if stack = "backend" then
    some ["cache", "controller", "cron_job", "db", "domain", "handler", "repository",
          "route", "service", "auth", "config", "middleware"]
  else if stack = "frontend" then
    some ["api", "component", "hook", "page", "style", "auth", "config", "middleware"]
  else
    none

/-- JavaScript truthiness test `!ACCESS_TOKEN` for an environment
variable: `undefined` and the empty string are falsy. -/
def isFalsyToken : Option String → Bool
  | none => true
  | some s => s = ""

/-- The object literal passed to `JSON.stringify` in `logEvent`
(fields in insertion order). -/
structure LogPayload where
  stack : String
  level : String
  package : String
  message : String
  timestamp : String
deriving DecidableEq, Repr

/-- The observable parts of one `fetch` call made by `logEvent`. -/
structure FetchRequest where
  url : String
  method : String
  contentType : String
  authorization : String
  body : String
deriving DecidableEq, Repr

/-- Outcome of the `fetch` call, supplied by the environment: either a
settled response (status code, status text, body text) or a rejection
carrying `error.message`. -/
inductive FetchOutcome where
  | response (status : Nat) (statusText : String) (text : String)
  | networkFailure (message : String)
deriving DecidableEq, Repr

/-- `response.ok`: status in the inclusive range 200–299. -/
def responseOk (status : Nat) : Bool := 200 ≤ status && status < 300

/-- Ambient state a single `logEvent` call runs against. -/
structure LogEnv where
  accessToken : Option String
  now : Nat
  fetchResult : FetchOutcome
deriving DecidableEq, Repr

/-- Fuel-driven digit expansion: `decimalDigitsAux fuel n` is the decimal
digit string of `n` provided `n < fuel`. -/
def decimalDigitsAux : Nat → Nat → List Char
  | 0, _ => []
  | fuel + 1, n =>
    if n < 10 then [Nat.digitChar n]
    else decimalDigitsAux fuel (n / 10) ++ [Nat.digitChar (n % 10)]

/-- Decimal digit characters of `n`, most significant first
(JavaScript number-to-string for a nonnegative integer). -/
def decimalDigits (n : Nat) : List Char := decimalDigitsAux (n + 1) n

/-- `String(n).padStart(w, '0')` on a nonnegative integer, as used by
`toISOString`'s field formatting. -/
def padDigits (w : Nat) (n : Nat) : List Char :=
  let ds := decimalDigits n
  List.replicate (w - ds.length) '0' ++ ds

/-- Civil date (year, month, day) of a day count since 1970-01-01 in
the proleptic Gregorian calendar — the arithmetic underlying
`Date.prototype.toISOString`. -/
def civilFromDays (z0 : Nat) : Nat × Nat × Nat :=
  let z := z0 + 719468
  let era := z / 146097
  let doe := z % 146097
  let yoe := (doe - doe / 1460 + doe / 36524 - doe / 146096) / 365
  let doy := doe - (365 * yoe + yoe / 4 - yoe / 100)
  let mp := (5 * doy + 2) / 153
  let d := doy - (153 * mp + 2) / 5 + 1
  let m := if mp < 10 then mp + 3 else mp - 9
  let y := if m ≤ 2 then yoe + era * 400 + 1 else yoe + era * 400
  (y, m, d)

/-- `new Date(t).toISOString()` for a nonnegative millisecond count
`t`: the 24-character simplified ISO-8601 form
`YYYY-MM-DDTHH:mm:ss.sssZ`. -/
def toISOString (t : Nat) : String :=
  let days := t / 86400000
  let ymd := civilFromDays days
  String.mk
    (padDigits 4 ymd.1 ++ '-' :: padDigits 2 ymd.2.1 ++ '-' :: padDigits 2 ymd.2.2 ++
     'T' :: padDigits 2 (t / 3600000 % 24) ++ ':' :: padDigits 2 (t / 60000 % 60) ++
     ':' :: padDigits 2 (t / 1000 % 60) ++ '.' :: padDigits 3 (t % 1000) ++ ['Z'])

/-- JSON string escaping of one character, as performed by
`JSON.stringify` on string values. -/
def jsonEscapeChar (c : Char) : List Char :=
  if c = '"' then ['\\', '"']
  else if c = '\\' then ['\\', '\\']
  else if c = '\x08' then ['\\', 'b']
  else if c = '\t' then ['\\', 't']
  else if c = '\n' then ['\\', 'n']
  else if c = '\x0c' then ['\\', 'f']
  else if c = '\r' then ['\\', 'r']
  else if c.toNat < 32 then ['\\', 'u', '0', '0', Nat.digitChar (c.toNat / 16), Nat.digitChar (c.toNat % 16)]
  else [c]

/-- JSON encoding of a string value: surrounding quotes plus escaped
contents. -/
def jsonQuote (s : String) : String :=
  String.mk ('"' :: (s.data.flatMap jsonEscapeChar) ++ ['"'])

/-- `JSON.stringify(logPayload)`: the five string fields in insertion
order. -/
def stringifyLogPayload (p : LogPayload) : String :=
  "\x7b\"stack\":" ++ jsonQuote p.stack ++
  ",\"level\":" ++ jsonQuote p.level ++
  ",\"package\":" ++ jsonQuote p.package ++
  ",\"message\":" ++ jsonQuote p.message ++
  ",\"timestamp\":" ++ jsonQuote p.timestamp ++ "\x7d"

/-- Body of `logEvent`'s `try` block.  Returns the console lines
written, the fetch requests issued, and `some m` when the block throws
(the only throw site is a rejected `await fetch`, whose
`error.message` is `m`). -/
def logEventTry (env : LogEnv) (stack level packageName message : String) :
    List ConsoleLine × List FetchRequest × Option String :=
  if !ALLOWED_STACKS.contains stack then
    ([⟨.error, "Invalid stack: " ++ stack ++ ". Allowed: " ++
        String.intercalate ", " ALLOWED_STACKS⟩], [], none)
  else if !ALLOWED_LEVELS.contains level then
    ([⟨.error, "Invalid level: " ++ level ++ ". Allowed: " ++
        String.intercalate ", " ALLOWED_LEVELS⟩], [], none)
  else if (ALLOWED_PACKAGES stack).isNone ||
      !((ALLOWED_PACKAGES stack).getD []).contains packageName then
    ([⟨.error, "Invalid package: " ++ packageName ++ " for stack: " ++ stack ++
        ". Allowed: " ++ String.intercalate ", " ((ALLOWED_PACKAGES stack).getD [])⟩],
     [], none)
  else if isFalsyToken env.accessToken then
    ([⟨.error, "ACCESS_TOKEN not found in environment variables"⟩], [], none)
  else
    let logPayload : LogPayload :=
      ⟨stack, level, packageName, message, toISOString env.now⟩
    let req : FetchRequest :=
      ⟨EVALUATION_SERVICE_URL, "POST", "application/json",
       "Bearer " ++ env.accessToken.getD "", stringifyLogPayload logPayload⟩
    match env.fetchResult with
    | .networkFailure msg => ([], [req], some msg)
    | .response status statusText text =>
      if !responseOk status then
        ([⟨.error, "Logging failed: " ++ toString status ++ " " ++ statusText⟩,
          ⟨.error, "Response: " ++ text⟩], [req], none)
      else
        ([], [req], none)

/-- `logEvent(stack, level, packageName, message)`: the `try` block
wrapped in the `catch` that logs `error.message` and returns normally.
`Except.ok` is a resolved promise; `Except.error` would be a rejected
one. -/
def logEvent (env : LogEnv) (stack level packageName message : String) :
    Except String (List ConsoleLine × List FetchRequest) :=
  match logEventTry env stack level packageName message with
  | (c, r, none) => Except.ok (c, r)
  | (c, r, some m) =>
      Except.ok (c ++ [⟨.error, "Error sending log to evaluation service: " ++ m⟩], r)

/-- The handle returned by `createLogger`: one method per level, each a
function of the ambient environment and the message. -/
structure Logger where
  debug : LogEnv → String → Except String (List ConsoleLine × List FetchRequest)
  info : LogEnv → String → Except String (List ConsoleLine × List FetchRequest)
  warn : LogEnv → String → Except String (List ConsoleLine × List FetchRequest)
  error : LogEnv → String → Except String (List ConsoleLine × List FetchRequest)
  fatal : LogEnv → String → Except String (List ConsoleLine × List FetchRequest)

/-- Prefix a local console echo onto an async result (the echo is
written before the forwarded call runs). -/
def consolePrepend (line : ConsoleLine)
    (r : Except String (List ConsoleLine × List FetchRequest)) :
    Except String (List ConsoleLine × List FetchRequest) :=
  match r with
  | .ok (c, q) => .ok (line :: c, q)
  | .error e => .error e

/-- `createLogger(stack, packageName)`: `debug`/`info` forward
directly; `warn` echoes via `console.warn`, `error`/`fatal` via
`console.error`, each before forwarding. -/
def createLogger (stack packageName : String) : Logger where
  debug := fun env message => logEvent env stack "debug" packageName message
  info := fun env message => logEvent env stack "info" packageName message
  warn := fun env message =>
    consolePrepend ⟨.warn, "[WARN] " ++ message⟩
      (logEvent env stack "warn" packageName message)
  error := fun env message =>
    consolePrepend ⟨.error, "[ERROR] " ++ message⟩
      (logEvent env stack "error" packageName message)
  fatal := fun env message =>
    consolePrepend ⟨.error, "[FATAL] " ++ message⟩
      (logEvent env stack "fatal" packageName message)

/-- Validity checker for the 24-character simplified ISO-8601 form. -/
def isValidISO8601 (s : String) : Bool :=
  match s.data with
  | [y1, y2, y3, y4, '-', o1, o2, '-', d1, d2, 'T', h1, h2, ':', i1, i2, ':', c1, c2, '.', f1, f2, f3, 'Z'] =>
      ([y1, y2, y3, y4, o1, o2, d1, d2, h1, h2, i1, i2, c1, c2, f1, f2, f3].all Char.isDigit) &&
      (1 ≤ 10 * (o1.toNat - 48) + (o2.toNat - 48) && 10 * (o1.toNat - 48) + (o2.toNat - 48) ≤ 12) &&
      (1 ≤ 10 * (d1.toNat - 48) + (d2.toNat - 48) && 10 * (d1.toNat - 48) + (d2.toNat - 48) ≤ 31) &&
      (10 * (h1.toNat - 48) + (h2.toNat - 48) ≤ 23) &&
      (10 * (i1.toNat - 48) + (i2.toNat - 48) ≤ 59) &&
      (10 * (c1.toNat - 48) + (c2.toNat - 48) ≤ 59)
  | _ => false


/-- The diagnostic written for an invalid stack. -/
def invalidStackLine (stack : String) : ConsoleLine :=
  ⟨.error, "Invalid stack: " ++ stack ++ ". Allowed: " ++
    String.intercalate ", " ALLOWED_STACKS⟩

/-- The diagnostic written for an invalid level. -/
def invalidLevelLine (level : String) : ConsoleLine :=
  ⟨.error, "Invalid level: " ++ level ++ ". Allowed: " ++
    String.intercalate ", " ALLOWED_LEVELS⟩

/-- The diagnostic written for a package not allowed for the stack. -/
def invalidPackageLine (packageName stack : String) : ConsoleLine :=
  ⟨.error, "Invalid package: " ++ packageName ++ " for stack: " ++ stack ++
    ". Allowed: " ++ String.intercalate ", " ((ALLOWED_PACKAGES stack).getD [])⟩

/-- The diagnostic written when the credential is absent or falsy. -/
def missingTokenLine : ConsoleLine :=
  ⟨.error, "ACCESS_TOKEN not found in environment variables"⟩

/-- The single request `logEvent` issues once validation and the
credential check pass. -/
def requestOf (env : LogEnv) (stack level packageName message : String) : FetchRequest :=
  ⟨EVALUATION_SERVICE_URL, "POST", "application/json",
   "Bearer " ++ env.accessToken.getD "",
   stringifyLogPayload ⟨stack, level, packageName, message, toISOString env.now⟩⟩

/-- Console output of the transport phase (including the `catch`
handler) as a function of the fetch outcome. -/
def transportConsole : FetchOutcome → List ConsoleLine
  | .response status statusText text =>
    if !responseOk status then
      [⟨.error, "Logging failed: " ++ toString status ++ " " ++ statusText⟩,
       ⟨.error, "Response: " ++ text⟩]
    else []
  | .networkFailure msg =>
    [⟨.error, "Error sending log to evaluation service: " ++ msg⟩]

/-- Character-list prefix test, an auxiliary for substring occurrence. -/
def leadsWith : List Char → List Char → Bool
  | [], _ => true
  | _ :: _, [] => false
  | a :: pa, b :: lb => a == b && leadsWith pa lb

/-- Substring occurrence of `pat` somewhere in `l`. -/
def occursIn (pat : List Char) : List Char → Bool
  | [] => leadsWith pat []
  | c :: t => leadsWith pat (c :: t) || occursIn pat t

/-- String `s` mentions `pat` as a contiguous substring. -/
def mentions (pat s : String) : Bool := occursIn pat.data s.data

theorem digitChar_zero : Nat.digitChar 0 = '0' := rfl

theorem decimalDigitsAux_congr :
    ∀ n f1 f2, n < f1 → n < f2 → decimalDigitsAux f1 n = decimalDigitsAux f2 n := by
  intro n
  induction n using Nat.strong_induction_on with
  | _ n ih =>
    intro f1 f2 h1 h2
    match f1, f2 with
    | a + 1, b + 1 =>
      simp only [decimalDigitsAux]
      by_cases h : n < 10
      · simp [h]
      · simp only [h, if_false]
        rw [ih (n / 10) (by omega) a b (by omega) (by omega)]

theorem decimalDigits_eq_of_lt (n : Nat) (h : n < 10) :
    decimalDigits n = [Nat.digitChar n] := by
  simp [decimalDigits, decimalDigitsAux, h]

theorem decimalDigits_eq_of_ge (n : Nat) (h : ¬ n < 10) :
    decimalDigits n = decimalDigits (n / 10) ++ [Nat.digitChar (n % 10)] := by
  show decimalDigitsAux (n + 1) n = _
  simp only [decimalDigitsAux, h, if_false]
  rw [decimalDigitsAux_congr (n / 10) n (n / 10 + 1) (by omega) (by omega)]
  rfl

theorem padDigits_two (n : Nat) (h : n ≤ 99) :
    padDigits 2 n = [Nat.digitChar (n / 10), Nat.digitChar (n % 10)] := by
  by_cases h1 : n < 10
  · have e0 : n / 10 = 0 := by omega
    have em : n % 10 = n := by omega
    rw [padDigits, decimalDigits_eq_of_lt n h1]
    simp [e0, em, List.replicate, digitChar_zero]
  · have h2 : n / 10 < 10 := by omega
    rw [padDigits, decimalDigits_eq_of_ge n h1, decimalDigits_eq_of_lt _ h2]
    simp

theorem padDigits_three (n : Nat) (h : n ≤ 999) :
    padDigits 3 n =
      [Nat.digitChar (n / 100), Nat.digitChar (n / 10 % 10), Nat.digitChar (n % 10)] := by
  by_cases h1 : n < 10
  · have e0 : n / 100 = 0 := by omega
    have e1 : n / 10 % 10 = 0 := by omega
    have em : n % 10 = n := by omega
    rw [padDigits, decimalDigits_eq_of_lt n h1]
    simp [e0, e1, em, List.replicate, digitChar_zero]
  · by_cases h2 : n < 100
    · have e0 : n / 100 = 0 := by omega
      have hq : n / 10 < 10 := by omega
      have e1 : n / 10 % 10 = n / 10 := by omega
      rw [padDigits, decimalDigits_eq_of_ge n h1, decimalDigits_eq_of_lt _ hq]
      simp [e0, e1, List.replicate, digitChar_zero]
    · have hq : ¬ n / 10 < 10 := by omega
      have hqq : n / 10 / 10 < 10 := by omega
      have e0 : n / 10 / 10 = n / 100 := by omega
      rw [padDigits, decimalDigits_eq_of_ge n h1, decimalDigits_eq_of_ge _ hq,
        decimalDigits_eq_of_lt _ hqq, e0]
      simp

theorem padDigits_four (n : Nat) (h : n ≤ 9999) :
    padDigits 4 n =
      [Nat.digitChar (n / 1000), Nat.digitChar (n / 100 % 10),
       Nat.digitChar (n / 10 % 10), Nat.digitChar (n % 10)] := by
  by_cases h1 : n < 10
  · have e0 : n / 1000 = 0 := by omega
    have e1 : n / 100 % 10 = 0 := by omega
    have e2 : n / 10 % 10 = 0 := by omega
    have em : n % 10 = n := by omega
    rw [padDigits, decimalDigits_eq_of_lt n h1]
    simp [e0, e1, e2, em, List.replicate, digitChar_zero]
  · by_cases h2 : n < 100
    · have e0 : n / 1000 = 0 := by omega
      have e1 : n / 100 % 10 = 0 := by omega
      have hq : n / 10 < 10 := by omega
      have e2 : n / 10 % 10 = n / 10 := by omega
      rw [padDigits, decimalDigits_eq_of_ge n h1, decimalDigits_eq_of_lt _ hq]
      simp [e0, e1, e2, List.replicate, digitChar_zero]
    · by_cases h3 : n < 1000
      · have e0 : n / 1000 = 0 := by omega
        have hq : ¬ n / 10 < 10 := by omega
        have hqq : n / 10 / 10 < 10 := by omega
        have e1 : n / 10 / 10 = n / 100 := by omega
        have e2 : n / 100 % 10 = n / 100 := by omega
        rw [padDigits, decimalDigits_eq_of_ge n h1, decimalDigits_eq_of_ge _ hq,
          decimalDigits_eq_of_lt _ hqq, e1]
        simp [e0, e2, List.replicate, digitChar_zero]
      · have hq : ¬ n / 10 < 10 := by omega
        have hqq : ¬ n / 10 / 10 < 10 := by omega
        have hqqq : n / 10 / 10 / 10 < 10 := by omega
        have e0 : n / 10 / 10 / 10 = n / 1000 := by omega
        have e1 : n / 10 / 10 % 10 = n / 100 % 10 := by omega
        rw [padDigits, decimalDigits_eq_of_ge n h1, decimalDigits_eq_of_ge _ hq,
          decimalDigits_eq_of_ge _ hqq, decimalDigits_eq_of_lt _ hqqq, e0, e1]
        simp

set_option maxHeartbeats 4000000 in
theorem civil_bounds (doe : Nat) (h : doe < 146097) :
    (doe - doe / 1460 + doe / 36524 - doe / 146096) / 365 ≤ 399 ∧
    365 * ((doe - doe / 1460 + doe / 36524 - doe / 146096) / 365) +
      ((doe - doe / 1460 + doe / 36524 - doe / 146096) / 365) / 4 -
      ((doe - doe / 1460 + doe / 36524 - doe / 146096) / 365) / 100 ≤ doe ∧
    doe - (365 * ((doe - doe / 1460 + doe / 36524 - doe / 146096) / 365) +
      ((doe - doe / 1460 + doe / 36524 - doe / 146096) / 365) / 4 -
      ((doe - doe / 1460 + doe / 36524 - doe / 146096) / 365) / 100) ≤ 365 := by
  set yoe := (doe - doe / 1460 + doe / 36524 - doe / 146096) / 365 with hyoe
  have hb : yoe ≤ 400 := by omega
  clear_value yoe
  interval_cases yoe <;> omega

theorem civilFromDays_bounds (days : Nat) (h : days ≤ 2932896) :
    (civilFromDays days).1 ≤ 9999 ∧
    1 ≤ (civilFromDays days).2.1 ∧ (civilFromDays days).2.1 ≤ 12 ∧
    1 ≤ (civilFromDays days).2.2 ∧ (civilFromDays days).2.2 ≤ 31 := by
  have hdoe : (days + 719468) % 146097 < 146097 := Nat.mod_lt _ (by norm_num)
  have hera : (days + 719468) / 146097 ≤ 24 := by omega
  have hbnd : (days + 719468) / 146097 = 24 → (days + 719468) % 146097 ≤ 146036 := by omega
  obtain ⟨h1, h2, h3⟩ := civil_bounds ((days + 719468) % 146097) hdoe
  simp only [civilFromDays]
  set doe := (days + 719468) % 146097 with hdoeeq
  set era := (days + 719468) / 146097 with heraeq
  set yoe := (doe - doe / 1460 + doe / 36524 - doe / 146096) / 365 with hyoe
  set doy := doe - (365 * yoe + yoe / 4 - yoe / 100) with hdoy
  set mp := (5 * doy + 2) / 153 with hmp
  have hmp11 : mp ≤ 11 := by omega
  split_ifs with hm1 hm2 hm3 <;> simp <;> omega

theorem digitChar_isDigit (a : Nat) (h : a < 10) : (Nat.digitChar a).isDigit = true := by
  interval_cases a <;> decide

theorem digitChar_toNat (a : Nat) (h : a < 10) : (Nat.digitChar a).toNat = 48 + a := by
  interval_cases a <;> decide

theorem toISOString_valid (t : Nat) (h : t ≤ 253402300799999) :
    isValidISO8601 (toISOString t) = true := by
  obtain ⟨hy, hm1, hm2, hd1, hd2⟩ := civilFromDays_bounds (t / 86400000) (by omega)
  have e4 := padDigits_four (civilFromDays (t / 86400000)).1 (by omega)
  have eo := padDigits_two (civilFromDays (t / 86400000)).2.1 (by omega)
  have ed := padDigits_two (civilFromDays (t / 86400000)).2.2 (by omega)
  have eh := padDigits_two (t / 3600000 % 24) (by omega)
  have ei := padDigits_two (t / 60000 % 60) (by omega)
  have es := padDigits_two (t / 1000 % 60) (by omega)
  have ef := padDigits_three (t % 1000) (by omega)
  simp only [toISOString]
  rw [e4, eo, ed, eh, ei, es, ef]
  simp only [isValidISO8601, List.cons_append, List.nil_append, List.all_cons, List.all_nil,
    Bool.and_eq_true, Bool.and_true, decide_eq_true_eq]
  repeat' apply And.intro
  all_goals first
    | exact digitChar_isDigit _ (by omega)
    | omega
    | (rw [digitChar_toNat _ (by omega), digitChar_toNat _ (by omega)]; omega)

/-- Characterization of `logEvent`: the four validation gates in source
order, each short-circuiting into a single diagnostic with no request,
then one request whose accompanying diagnostics depend only on the
fetch outcome. -/
theorem logEvent_spec (env : LogEnv) (stack level packageName message : String) :
    logEvent env stack level packageName message =
      if !ALLOWED_STACKS.contains stack then
        Except.ok ([invalidStackLine stack], [])
      else if !ALLOWED_LEVELS.contains level then
        Except.ok ([invalidLevelLine level], [])
      else if (ALLOWED_PACKAGES stack).isNone ||
          !((ALLOWED_PACKAGES stack).getD []).contains packageName then
        Except.ok ([invalidPackageLine packageName stack], [])
      else if isFalsyToken env.accessToken then
        Except.ok ([missingTokenLine], [])
      else
        Except.ok (transportConsole env.fetchResult,
          [requestOf env stack level packageName message]) := by
  unfold logEvent logEventTry
  split_ifs with h1 h2 h3 h4
  · rfl
  · rfl
  · rfl
  · rfl
  · rcases env.fetchResult with ⟨status, statusText, text⟩ | msg
    · simp only [transportConsole, requestOf]
      split_ifs with h5
      · rfl
      · rfl
    · simp only [transportConsole, requestOf]
      rfl

theorem leadsWith_self_append (p rest : List Char) : leadsWith p (p ++ rest) = true := by
  induction p with
  | nil => rfl
  | cons a t ih => simp [leadsWith, ih]

theorem occursIn_append (pre p rest : List Char) :
    occursIn p (pre ++ (p ++ rest)) = true := by
  induction pre with
  | nil =>
    simp only [List.nil_append]
    cases h : p ++ rest with
    | nil =>
      have hp : p = [] := by
        cases p with
        | nil => rfl
        | cons a t => simp at h
      rw [hp]
      rfl
    | cons c t =>
      rw [occursIn, ← h, leadsWith_self_append]
      rfl
  | cons a pretail ih =>
    simp only [List.cons_append, occursIn]
    rw [show pretail.append (p ++ rest) = pretail ++ (p ++ rest) from rfl, ih]
    simp

theorem mentions_of_parts (pre pat post : String) :
    mentions pat (pre ++ (pat ++ post)) = true := by
  simp only [mentions, String.data_append]
  exact occursIn_append pre.data pat.data post.data

theorem stacks_cases (stack : String) (hs : ALLOWED_STACKS.contains stack = true) :
    stack = "backend" ∨ stack = "frontend" := by
  simp [ALLOWED_STACKS, List.contains] at hs
  tauto

theorem packages_isSome (stack : String) (hs : ALLOWED_STACKS.contains stack = true) :
    (ALLOWED_PACKAGES stack).isNone = false := by
  rcases stacks_cases stack hs with h | h <;> subst h <;> rfl

/-- C1: for every valid input with the credential present, `logEvent`
issues exactly one HTTP POST to the fixed endpoint URL with JSON
content type and bearer authorization, whose body is the JSON encoding
of the five-field payload, and whose timestamp — computed from the
single clock sample the call takes, so it lies between call start and
call completion — is a well-formed ISO-8601 string. -/
theorem claim_C1 (env : LogEnv) (stack level packageName message tok : String)
    (hs : ALLOWED_STACKS.contains stack = true)
    (hl : ALLOWED_LEVELS.contains level = true)
    (hp : ((ALLOWED_PACKAGES stack).getD []).contains packageName = true)
    (htok : env.accessToken = some tok) (htokNe : tok ≠ "")
    (hclock : env.now ≤ 253402300799999) :
    ∃ consoleOut,
      logEvent env stack level packageName message =
        Except.ok (consoleOut,
          [⟨EVALUATION_SERVICE_URL, "POST", "application/json", "Bearer " ++ tok,
            stringifyLogPayload ⟨stack, level, packageName, message, toISOString env.now⟩⟩]) ∧
      isValidISO8601 (toISOString env.now) = true := by
  have hnone : (ALLOWED_PACKAGES stack).isNone = false := packages_isSome stack hs
  have hfal : isFalsyToken (some tok) = false := by
    simp [isFalsyToken, htokNe]
  have hsm : stack ∈ ALLOWED_STACKS := by simpa using hs
  have hlm : level ∈ ALLOWED_LEVELS := by simpa using hl
  have hpm : packageName ∈ (ALLOWED_PACKAGES stack).getD [] := by simpa using hp
  refine ⟨transportConsole env.fetchResult, ?_, toISOString_valid env.now hclock⟩
  rw [logEvent_spec]
  simp [hsm, hlm, hnone, hpm, hfal, requestOf, htok]

theorem claim_C1_witness :
    ∃ consoleOut,
      logEvent ⟨some "token123", 1760140000000, .response 200 "OK" ""⟩
          "backend" "info" "service" "started" =
        Except.ok (consoleOut,
          [⟨EVALUATION_SERVICE_URL, "POST", "application/json", "Bearer " ++ "token123",
            stringifyLogPayload ⟨"backend", "info", "service", "started",
              toISOString 1760140000000⟩⟩]) ∧
      isValidISO8601 (toISOString 1760140000000) = true :=
  claim_C1 ⟨some "token123", 1760140000000, .response 200 "OK" ""⟩
    "backend" "info" "service" "started" "token123"
    (by decide) (by decide) (by decide) rfl (by decide) (by decide)

/-- C2: for every input and every transport outcome, `logEvent`
resolves (it is never a rejected promise); when a request was issued
and the response status is non-2xx the console gains a line mentioning
the status code, and when the fetch rejects the console gains the
catch handler's diagnostic. -/
theorem claim_C2 (env : LogEnv) (stack level packageName message : String) :
    (∃ out, logEvent env stack level packageName message = Except.ok out) ∧
    (∀ status statusText text,
      env.fetchResult = FetchOutcome.response status statusText text →
      responseOk status = false →
      ∀ c r, logEvent env stack level packageName message = Except.ok (c, r) →
        r ≠ [] →
        ∃ line, line ∈ c ∧ mentions (toString status) line.text = true) ∧
    (∀ msg,
      env.fetchResult = FetchOutcome.networkFailure msg →
      ∀ c r, logEvent env stack level packageName message = Except.ok (c, r) →
        r ≠ [] →
        (⟨ConsoleStream.error, "Error sending log to evaluation service: " ++ msg⟩ : ConsoleLine) ∈ c) := by
  refine ⟨?_, ?_, ?_⟩
  · rw [logEvent_spec]
    split_ifs <;> exact ⟨_, rfl⟩
  · intro status statusText text hfr hok c r heq hr
    rw [logEvent_spec] at heq
    split_ifs at heq <;>
      simp only [Except.ok.injEq, Prod.mk.injEq] at heq
    · exact absurd heq.2.symm hr
    · exact absurd heq.2.symm hr
    · exact absurd heq.2.symm hr
    · exact absurd heq.2.symm hr
    · refine ⟨⟨ConsoleStream.error,
        "Logging failed: " ++ toString status ++ " " ++ statusText⟩, ?_, ?_⟩
      · rw [← heq.1, hfr]
        simp [transportConsole, hok]
      · have h2 := mentions_of_parts "Logging failed: " (toString status) (" " ++ statusText)
        simpa [String.append_assoc] using h2
  · intro msg hfr c r heq hr
    rw [logEvent_spec] at heq
    split_ifs at heq <;>
      simp only [Except.ok.injEq, Prod.mk.injEq] at heq
    · exact absurd heq.2.symm hr
    · exact absurd heq.2.symm hr
    · exact absurd heq.2.symm hr
    · exact absurd heq.2.symm hr
    · rw [← heq.1, hfr]
      simp [transportConsole]

theorem claim_C2_witness :
    (∃ out, logEvent ⟨some "t", 0, FetchOutcome.response 500 "Internal Server Error" "oops"⟩
        "backend" "info" "service" "m" = Except.ok out) ∧
    (∃ line, line ∈ transportConsole (FetchOutcome.response 500 "Internal Server Error" "oops") ∧
      mentions "500" line.text = true) := by
  have h := claim_C2 ⟨some "t", 0, FetchOutcome.response 500 "Internal Server Error" "oops"⟩
    "backend" "info" "service" "m"
  refine ⟨h.1, ?_⟩
  exact h.2.1 500 "Internal Server Error" "oops" rfl (by decide)
    (transportConsole (FetchOutcome.response 500 "Internal Server Error" "oops"))
    [requestOf ⟨some "t", 0, FetchOutcome.response 500 "Internal Server Error" "oops"⟩
      "backend" "info" "service" "m"]
    (by rfl) (by simp)

/-- C3: for every stack outside the allow-list, `logEvent` makes no
network call and emits exactly the diagnostic that names the invalid
stack and the allowed set. -/
theorem claim_C3 (env : LogEnv) (stack level packageName message : String)
    (h : ALLOWED_STACKS.contains stack = false) :
    logEvent env stack level packageName message =
      Except.ok ([invalidStackLine stack], []) ∧
    mentions stack (invalidStackLine stack).text = true ∧
    mentions (String.intercalate ", " ALLOWED_STACKS) (invalidStackLine stack).text = true := by
  refine ⟨?_, ?_, ?_⟩
  · rw [logEvent_spec]
    have hm : ¬ stack ∈ ALLOWED_STACKS := by simpa using h
    simp [hm]
  · have h2 := mentions_of_parts "Invalid stack: " stack
      (". Allowed: " ++ String.intercalate ", " ALLOWED_STACKS)
    simpa [invalidStackLine, String.append_assoc] using h2
  · have h2 := mentions_of_parts
      ("Invalid stack: " ++ stack ++ ". Allowed: ") (String.intercalate ", " ALLOWED_STACKS) ""
    simpa [invalidStackLine, String.append_assoc] using h2

theorem claim_C3_witness :
    logEvent ⟨some "t", 0, FetchOutcome.response 200 "OK" ""⟩ "server" "info" "cache" "m" =
      Except.ok ([invalidStackLine "server"], []) ∧
    mentions "server" (invalidStackLine "server").text = true ∧
    mentions (String.intercalate ", " ALLOWED_STACKS) (invalidStackLine "server").text = true :=
  claim_C3 ⟨some "t", 0, FetchOutcome.response 200 "OK" ""⟩ "server" "info" "cache" "m"
    (by decide)

theorem claim_C4_cex :
    logEvent ⟨some "t", 0, FetchOutcome.response 200 "OK" ""⟩ "x" "trace" "cache" "m" =
      Except.ok ([invalidStackLine "x"], []) ∧
    mentions "trace" (invalidStackLine "x").text = false ∧
    invalidStackLine "x" ≠ invalidLevelLine "trace" := by
  refine ⟨?_, by decide, by decide⟩
  rw [logEvent_spec]
  rfl

/-- C4 (amended): for every level outside the allow-list, `logEvent`
makes no network call; when additionally the stack is valid, it emits
exactly the diagnostic naming the invalid level (with an invalid stack
the earlier stack diagnostic is emitted instead). -/
theorem claim_C4 (env : LogEnv) (stack level packageName message : String)
    (h : ALLOWED_LEVELS.contains level = false) :
    (∃ c, logEvent env stack level packageName message = Except.ok (c, [])) ∧
    (ALLOWED_STACKS.contains stack = true →
      logEvent env stack level packageName message =
        Except.ok ([invalidLevelLine level], []) ∧
      mentions level (invalidLevelLine level).text = true) := by
  have hlm : ¬ level ∈ ALLOWED_LEVELS := by simpa using h
  constructor
  · rw [logEvent_spec]
    by_cases g1 : stack ∈ ALLOWED_STACKS
    · exact ⟨[invalidLevelLine level], by simp [g1, hlm]⟩
    · exact ⟨[invalidStackLine stack], by simp [g1]⟩
  · intro hs
    have hsm : stack ∈ ALLOWED_STACKS := by simpa using hs
    refine ⟨?_, ?_⟩
    · rw [logEvent_spec]
      simp [hsm, hlm]
    · have h2 := mentions_of_parts "Invalid level: " level
        (". Allowed: " ++ String.intercalate ", " ALLOWED_LEVELS)
      simpa [invalidLevelLine, String.append_assoc] using h2

theorem claim_C4_witness :
    (∃ c, logEvent ⟨some "t", 0, FetchOutcome.response 200 "OK" ""⟩ "backend" "trace" "cache" "m" =
      Except.ok (c, [])) ∧
    (logEvent ⟨some "t", 0, FetchOutcome.response 200 "OK" ""⟩ "backend" "trace" "cache" "m" =
        Except.ok ([invalidLevelLine "trace"], []) ∧
      mentions "trace" (invalidLevelLine "trace").text = true) := by
  have h := claim_C4 ⟨some "t", 0, FetchOutcome.response 200 "OK" ""⟩ "backend" "trace" "cache" "m"
    (by decide)
  exact ⟨h.1, h.2 (by decide)⟩

/-- C5: whenever the package is outside the stack's allow-list no
network call is made, and when the stack itself is invalid the package
check is short-circuited: only the stack diagnostic is produced. -/
theorem claim_C5 (env : LogEnv) (stack level packageName message : String)
    (hp : ((ALLOWED_PACKAGES stack).getD []).contains packageName = false) :
    (∃ c, logEvent env stack level packageName message = Except.ok (c, [])) ∧
    (ALLOWED_STACKS.contains stack = false →
      logEvent env stack level packageName message =
        Except.ok ([invalidStackLine stack], [])) := by
  have hpm : ¬ packageName ∈ (ALLOWED_PACKAGES stack).getD [] := by simpa using hp
  constructor
  · rw [logEvent_spec]
    by_cases g1 : stack ∈ ALLOWED_STACKS
    · by_cases g2 : level ∈ ALLOWED_LEVELS
      · exact ⟨[invalidPackageLine packageName stack], by simp [g1, g2, hpm]⟩
      · exact ⟨[invalidLevelLine level], by simp [g1, g2]⟩
    · exact ⟨[invalidStackLine stack], by simp [g1]⟩
  · intro hs
    have hm : ¬ stack ∈ ALLOWED_STACKS := by simpa using hs
    rw [logEvent_spec]
    simp [hm]

theorem claim_C5_witness :
    (∃ c, logEvent ⟨some "t", 0, FetchOutcome.response 200 "OK" ""⟩ "backend" "info" "page" "m" =
      Except.ok (c, [])) ∧
    (logEvent ⟨some "t", 0, FetchOutcome.response 200 "OK" ""⟩ "backend" "info" "page" "m" =
      Except.ok ([invalidPackageLine "page" "backend"], [])) := by
  have h := claim_C5 ⟨some "t", 0, FetchOutcome.response 200 "OK" ""⟩ "backend" "info" "page" "m"
    (by decide)
  refine ⟨h.1, ?_⟩
  rw [logEvent_spec]
  rfl

/-- C6: with an absent (falsy) credential, validation still runs with
its usual diagnostics, inputs that pass validation produce the
credential diagnostic, and no POST is ever issued. -/
theorem claim_C6 (env : LogEnv) (stack level packageName message : String)
    (h : isFalsyToken env.accessToken = true) :
    (∃ c, logEvent env stack level packageName message = Except.ok (c, [])) ∧
    (ALLOWED_STACKS.contains stack = false →
      logEvent env stack level packageName message =
        Except.ok ([invalidStackLine stack], [])) ∧
    (ALLOWED_STACKS.contains stack = true → ALLOWED_LEVELS.contains level = false →
      logEvent env stack level packageName message =
        Except.ok ([invalidLevelLine level], [])) ∧
    (ALLOWED_STACKS.contains stack = true → ALLOWED_LEVELS.contains level = true →
      ((ALLOWED_PACKAGES stack).getD []).contains packageName = false →
      logEvent env stack level packageName message =
        Except.ok ([invalidPackageLine packageName stack], [])) ∧
    (ALLOWED_STACKS.contains stack = true → ALLOWED_LEVELS.contains level = true →
      ((ALLOWED_PACKAGES stack).getD []).contains packageName = true →
      logEvent env stack level packageName message =
        Except.ok ([missingTokenLine], [])) := by
  refine ⟨?_, ?_, ?_, ?_, ?_⟩
  · rw [logEvent_spec]
    by_cases g1 : stack ∈ ALLOWED_STACKS
    · by_cases g2 : level ∈ ALLOWED_LEVELS
      · by_cases g3 : packageName ∈ (ALLOWED_PACKAGES stack).getD []
        · have hsc : ALLOWED_STACKS.contains stack = true := by simpa using g1
          exact ⟨[missingTokenLine],
            by simp [g1, g2, g3, h, packages_isSome stack hsc]⟩
        · exact ⟨[invalidPackageLine packageName stack], by simp [g1, g2, g3]⟩
      · exact ⟨[invalidLevelLine level], by simp [g1, g2]⟩
    · exact ⟨[invalidStackLine stack], by simp [g1]⟩
  · intro hs
    have hm : ¬ stack ∈ ALLOWED_STACKS := by simpa using hs
    rw [logEvent_spec]
    simp [hm]
  · intro hs hl
    have hsm : stack ∈ ALLOWED_STACKS := by simpa using hs
    have hlm : ¬ level ∈ ALLOWED_LEVELS := by simpa using hl
    rw [logEvent_spec]
    simp [hsm, hlm]
  · intro hs hl hp
    have hsm : stack ∈ ALLOWED_STACKS := by simpa using hs
    have hlm : level ∈ ALLOWED_LEVELS := by simpa using hl
    have hpm : ¬ packageName ∈ (ALLOWED_PACKAGES stack).getD [] := by simpa using hp
    rw [logEvent_spec]
    simp [hsm, hlm, hpm]
  · intro hs hl hp
    have hsm : stack ∈ ALLOWED_STACKS := by simpa using hs
    have hlm : level ∈ ALLOWED_LEVELS := by simpa using hl
    have hpm : packageName ∈ (ALLOWED_PACKAGES stack).getD [] := by simpa using hp
    have hnone : (ALLOWED_PACKAGES stack).isNone = false := packages_isSome stack hs
    rw [logEvent_spec]
    simp [hsm, hlm, hpm, hnone, h]

theorem claim_C6_witness :
    (∃ c, logEvent ⟨none, 0, FetchOutcome.response 200 "OK" ""⟩ "backend" "info" "db" "m" =
      Except.ok (c, [])) ∧
    (logEvent ⟨none, 0, FetchOutcome.response 200 "OK" ""⟩ "backend" "info" "db" "m" =
      Except.ok ([missingTokenLine], [])) := by
  have h := claim_C6 ⟨none, 0, FetchOutcome.response 200 "OK" ""⟩ "backend" "info" "db" "m" rfl
  exact ⟨h.1, h.2.2.2.2 (by decide) (by decide) (by decide)⟩

/-- C7: each level method of a `createLogger` handle behaves exactly
like `logEvent` at that level with the handle's fixed stack and
package; `warn` first echoes to `console.warn` and `error`/`fatal` to
`console.error`, while `debug`/`info` add no local echo. -/
theorem claim_C7 (env : LogEnv) (stack packageName message : String) :
    (createLogger stack packageName).debug env message =
      logEvent env stack "debug" packageName message ∧
    (createLogger stack packageName).info env message =
      logEvent env stack "info" packageName message ∧
    (∀ c r, logEvent env stack "warn" packageName message = Except.ok (c, r) →
      (createLogger stack packageName).warn env message =
        Except.ok (⟨ConsoleStream.warn, "[WARN] " ++ message⟩ :: c, r)) ∧
    (∀ c r, logEvent env stack "error" packageName message = Except.ok (c, r) →
      (createLogger stack packageName).error env message =
        Except.ok (⟨ConsoleStream.error, "[ERROR] " ++ message⟩ :: c, r)) ∧
    (∀ c r, logEvent env stack "fatal" packageName message = Except.ok (c, r) →
      (createLogger stack packageName).fatal env message =
        Except.ok (⟨ConsoleStream.error, "[FATAL] " ++ message⟩ :: c, r)) := by
  refine ⟨rfl, rfl, ?_, ?_, ?_⟩ <;>
    · intro c r h
      simp [createLogger, consolePrepend, h]

theorem claim_C7_witness :
    (createLogger "frontend" "page").error ⟨some "t", 0, FetchOutcome.response 200 "OK" ""⟩
        "boom" =
      Except.ok ([⟨ConsoleStream.error, "[ERROR] boom"⟩],
        [requestOf ⟨some "t", 0, FetchOutcome.response 200 "OK" ""⟩
          "frontend" "error" "page" "boom"]) := by
  have h := (claim_C7 ⟨some "t", 0, FetchOutcome.response 200 "OK" ""⟩
    "frontend" "page" "boom").2.2.2.1 []
    [requestOf ⟨some "t", 0, FetchOutcome.response 200 "OK" ""⟩ "frontend" "error" "page" "boom"]
    (by rfl)
  exact h

/-- C8: the four checks run in source order (stack, level, package,
credential) and the first failure short-circuits: exactly the one
diagnostic of the earliest failing check is emitted and no request is
made. -/
theorem claim_C8 (env : LogEnv) (stack level packageName message : String) :
    (ALLOWED_STACKS.contains stack = false →
      logEvent env stack level packageName message =
        Except.ok ([invalidStackLine stack], [])) ∧
    (ALLOWED_STACKS.contains stack = true → ALLOWED_LEVELS.contains level = false →
      logEvent env stack level packageName message =
        Except.ok ([invalidLevelLine level], [])) ∧
    (ALLOWED_STACKS.contains stack = true → ALLOWED_LEVELS.contains level = true →
      ((ALLOWED_PACKAGES stack).getD []).contains packageName = false →
      logEvent env stack level packageName message =
        Except.ok ([invalidPackageLine packageName stack], [])) ∧
    (ALLOWED_STACKS.contains stack = true → ALLOWED_LEVELS.contains level = true →
      ((ALLOWED_PACKAGES stack).getD []).contains packageName = true →
      isFalsyToken env.accessToken = true →
      logEvent env stack level packageName message =
        Except.ok ([missingTokenLine], [])) := by
  refine ⟨?_, ?_, ?_, ?_⟩
  · intro hs
    have hm : ¬ stack ∈ ALLOWED_STACKS := by simpa using hs
    rw [logEvent_spec]
    simp [hm]
  · intro hs hl
    have hsm : stack ∈ ALLOWED_STACKS := by simpa using hs
    have hlm : ¬ level ∈ ALLOWED_LEVELS := by simpa using hl
    rw [logEvent_spec]
    simp [hsm, hlm]
  · intro hs hl hp
    have hsm : stack ∈ ALLOWED_STACKS := by simpa using hs
    have hlm : level ∈ ALLOWED_LEVELS := by simpa using hl
    have hpm : ¬ packageName ∈ (ALLOWED_PACKAGES stack).getD [] := by simpa using hp
    rw [logEvent_spec]
    simp [hsm, hlm, hpm]
  · intro hs hl hp htok
    have hsm : stack ∈ ALLOWED_STACKS := by simpa using hs
    have hlm : level ∈ ALLOWED_LEVELS := by simpa using hl
    have hpm : packageName ∈ (ALLOWED_PACKAGES stack).getD [] := by simpa using hp
    rw [logEvent_spec]
    simp [hsm, hlm, hpm, packages_isSome stack hs, htok]

theorem claim_C8_witness :
    logEvent ⟨none, 0, FetchOutcome.response 200 "OK" ""⟩ "server" "trace" "nope" "m" =
      Except.ok ([invalidStackLine "server"], []) :=
  (claim_C8 ⟨none, 0, FetchOutcome.response 200 "OK" ""⟩ "server" "trace" "nope" "m").1
    (by decide)

/-- C9: a present-but-empty credential is treated exactly like an
absent one: for otherwise-valid input the missing-credential
diagnostic is logged and no POST is issued. -/
theorem claim_C9 (env : LogEnv) (stack level packageName message : String)
    (hs : ALLOWED_STACKS.contains stack = true)
    (hl : ALLOWED_LEVELS.contains level = true)
    (hp : ((ALLOWED_PACKAGES stack).getD []).contains packageName = true)
    (h : env.accessToken = none ∨ env.accessToken = some "") :
    logEvent env stack level packageName message = Except.ok ([missingTokenLine], []) := by
  have hfal : isFalsyToken env.accessToken = true := by
    rcases h with h | h <;> rw [h] <;> rfl
  have hsm : stack ∈ ALLOWED_STACKS := by simpa using hs
  have hlm : level ∈ ALLOWED_LEVELS := by simpa using hl
  have hpm : packageName ∈ (ALLOWED_PACKAGES stack).getD [] := by simpa using hp
  rw [logEvent_spec]
  simp [hsm, hlm, hpm, packages_isSome stack hs, hfal]

theorem claim_C9_witness :
    logEvent ⟨some "", 0, FetchOutcome.response 200 "OK" ""⟩ "frontend" "warn" "page" "m" =
      Except.ok ([missingTokenLine], []) :=
  claim_C9 ⟨some "", 0, FetchOutcome.response 200 "OK" ""⟩ "frontend" "warn" "page" "m"
    (by decide) (by decide) (by decide) (Or.inr rfl)

/-- C10: the message is never validated: for every message string
(the empty string included), valid remaining fields and a present
credential still yield the POST, with the message passed verbatim into
the serialized payload's message field. -/
theorem claim_C10 (env : LogEnv) (stack level packageName tok : String)
    (hs : ALLOWED_STACKS.contains stack = true)
    (hl : ALLOWED_LEVELS.contains level = true)
    (hp : ((ALLOWED_PACKAGES stack).getD []).contains packageName = true)
    (htok : env.accessToken = some tok) (htokNe : tok ≠ "") :
    ∀ message : String,
      ∃ consoleOut,
        logEvent env stack level packageName message =
          Except.ok (consoleOut,
            [⟨EVALUATION_SERVICE_URL, "POST", "application/json", "Bearer " ++ tok,
              stringifyLogPayload ⟨stack, level, packageName, message, toISOString env.now⟩⟩]) := by
  intro message
  have hfal : isFalsyToken (some tok) = false := by
    simp [isFalsyToken, htokNe]
  have hsm : stack ∈ ALLOWED_STACKS := by simpa using hs
  have hlm : level ∈ ALLOWED_LEVELS := by simpa using hl
  have hpm : packageName ∈ (ALLOWED_PACKAGES stack).getD [] := by simpa using hp
  refine ⟨transportConsole env.fetchResult, ?_⟩
  rw [logEvent_spec]
  simp [hsm, hlm, packages_isSome stack hs, hpm, hfal, requestOf, htok]

theorem claim_C10_witness :
    ∃ consoleOut,
      logEvent ⟨some "t", 0, FetchOutcome.response 200 "OK" ""⟩ "backend" "info" "service" "" =
        Except.ok (consoleOut,
          [⟨EVALUATION_SERVICE_URL, "POST", "application/json", "Bearer " ++ "t",
            stringifyLogPayload ⟨"backend", "info", "service", "", toISOString 0⟩⟩]) :=
  claim_C10 ⟨some "t", 0, FetchOutcome.response 200 "OK" ""⟩ "backend" "info" "service" "t"
    (by decide) (by decide) (by decide) rfl (by decide) ""
